import Mathlib

/-!
Verification development for the workflow step-execution engine of the
Agentic framework (src/agentic/core/workflow.py and
src/agentic/core/workflow_step.py), as a shallow embedding in Lean 4.

Python dynamic values are embedded as the inductive `Value`; Python dicts
become ordered association lists with overwrite-in-place assignment
(`dset`); Python exceptions become the `Err` type threaded in an explicit
(state, Except) result, so that mutations performed before a raise are
preserved, exactly as a caller holding the mutated context object observes
in Python.  Python callables that may raise (tool validate/execute,
injected condition functions, the eval denotation of a condition
expression string) are embedded as `... -> Except Err _` functions.
-/

/-- Embedding of the Python runtime values that flow through the engine:
None, booleans, integers, strings, lists, and string-keyed dicts. -/
inductive Value where
  | none : Value
  | bool (b : Bool) : Value
  | int (n : Int) : Value
  | str (s : String) : Value
  | list (items : List Value) : Value
  | dict (entries : List (String × Value)) : Value

/-- A Python dict with string keys, kept in insertion order. -/
abbrev Dict (α : Type) : Type := List (String × α)

/-- Python `d.get(k)`: first (and, under the nodup-keys invariant, only)
binding of the key. -/
def dget {α : Type} (d : Dict α) (k : String) : Option α :=
  match d with
  | [] => Option.none
  | (k2, v) :: rest => if k2 = k then some v else dget rest k

/-- Python `d[k] = v`: overwrite in place if the key exists, else append. -/
def dset {α : Type} (d : Dict α) (k : String) (v : α) : Dict α :=
  match d with
  | [] => [(k, v)]
  | (k2, v2) :: rest => if k2 = k then (k, v) :: rest else (k2, v2) :: dset rest k v

/-- Embedding of the Python exceptions raised by the engine and by the
user-supplied callables it invokes. -/
inductive Err where
  | toolExecution (tool_name : String) (message : String) : Err
  | raised (message : String) : Err
  | cycle (step_id : String) (workflow_id : String) : Err
  | valueError (message : String) : Err
  | keyError (message : String) : Err
  | indexError (index : Nat) : Err
  | attributeError : Err
  | outOfFuel : Err

/-- Python `str(exc)` for the embedded exceptions.  `ToolExecutionError`
prefixes its message as its `__init__` does; `raised` carries a foreign
exception whose string is the message itself. -/
def errStr : Err → String
  | Err.toolExecution tool_name message =>
      "Tool " ++ tool_name ++ " execution failed: " ++ message
  | Err.raised message => message
  | Err.cycle step_id workflow_id =>
      "Detected loop at step " ++ step_id ++ " in workflow " ++ workflow_id ++
      ". Configure LOOP-type steps explicitly instead of cyclic references."
  | Err.valueError message => message
  | Err.keyError message => message
  | Err.indexError _ => "list index out of range"
  | Err.attributeError => "attribute error"
  | Err.outOfFuel => "out of fuel"

/- Python string helpers, implemented structurally over the character list
so that every concrete computation reduces definitionally. -/

/-- The characters of a string. -/
def chars (s : String) : List Char := s.data

/-- Rebuild a string from characters. -/
def strOfChars (l : List Char) : String := String.mk l

def dotChar : Char := '.'

def dollarChar : Char := '$'

/-- The opening curly brace character. -/
def lbrace : Char := Char.ofNat 123

/-- The closing curly brace character. -/
def rbrace : Char := Char.ofNat 125

/-- Python `s.split(".")`. -/
def splitDot : List Char → List (List Char)
  | [] => [[]]
  | c :: rest =>
    match splitDot rest with
    | [] => [[]]
    | h :: t => if c = dotChar then [] :: h :: t else (c :: h) :: t

/-- Python `".".join(parts)`. -/
def joinDot : List (List Char) → List Char
  | [] => []
  | [p] => p
  | p :: rest => p ++ dotChar :: joinDot rest

/-- Python `value.startswith("${") and value.endswith("}")`. -/
def isTemplate (l : List Char) : Bool :=
  [dollarChar, lbrace].isPrefixOf l && [rbrace].isSuffixOf l

/-- Python `value[2:-1]`: strip the template delimiters. -/
def templatePath (l : List Char) : List Char := (l.drop 2).dropLast

/-- Python `key.isdigit()` (ASCII digits). -/
def pyIsDigit (l : List Char) : Bool := !l.isEmpty && l.all Char.isDigit

/-- Python `int(key)` for a string of digits. -/
def digitsToNat (l : List Char) : Nat :=
  l.foldl (fun n c => n * 10 + (c.toNat - 48)) 0

/-- Python `v.get(k, dflt)` on a value that is expected to be a dict;
calling `.get` on a non-dict raises `AttributeError` (never reached by the
engine, which only stores dicts at these positions). -/
def vGetD (v : Value) (k : String) (dflt : Value) : Except Err Value :=
  match v with
  | Value.dict entries => Except.ok ((dget entries k).getD dflt)
  | _ => Except.error Err.attributeError

/-- Python `v.get(k)` (default None). -/
def vGet (v : Value) (k : String) : Except Err Value := vGetD v k Value.none

/-- `WorkflowStep._get_nested_value`: walk a dotted path through nested
dicts and lists.  Dict misses and non-container segments yield None; a
non-negative integer segment indexes a list, raising `IndexError` when out
of range (Python `obj[int(key)]`). -/
def get_nested_value : Value → List (List Char) → Except Err Value
  | obj, [] => Except.ok obj
  | obj, key :: rest =>
    match obj with
    | Value.dict entries =>
      match (dget entries (strOfChars key)).getD Value.none with
      | Value.none => Except.ok Value.none
      | v => get_nested_value v rest
    | Value.list items =>
      if pyIsDigit key then
        match items.get? (digitsToNat key) with
        | Option.none => Except.error (Err.indexError (digitsToNat key))
        | some Value.none => Except.ok Value.none
        | some v => get_nested_value v rest
      else Except.ok Value.none
    | _ => Except.ok Value.none

/-- `WorkflowStep._resolve_path`: resolve a dotted path such as
`step1.result` or `context.key` against the wrapper dict
`[("context", data), ("step_results", step_results)]` that the engine
passes in.  Note the source resolves a `context.`-prefixed path by calling
`.get` on that wrapper itself, not on the data dict stored under its
`"context"` key. -/
def resolve_path (context : Dict Value) (path : List Char) : Except Err Value :=
  match splitDot path with
  | [] => Except.ok Value.none
  | first :: rest =>
    if first = chars "context" then
      Except.ok ((dget context (strOfChars (joinDot rest))).getD Value.none)
    else
      match vGetD ((dget context "step_results").getD (Value.dict []))
          (strOfChars first) (Value.dict []) with
      | Except.error e => Except.error e
      | Except.ok step_result =>
        match rest with
        | [k] =>
          if k = chars "result" then vGet step_result "result"
          else vGet step_result (strOfChars k)
        | _ => get_nested_value step_result rest

mutual

/-- `WorkflowStep._resolve_value`: template strings are resolved through
`resolve_path`; dicts and lists are resolved recursively; every other
value passes through unchanged. -/
def resolve_value (context : Dict Value) : Value → Except Err Value
  | Value.str s =>
    if isTemplate (chars s) then resolve_path context (templatePath (chars s))
    else Except.ok (Value.str s)
  | Value.dict entries =>
    match resolve_entries context entries with
    | Except.ok es => Except.ok (Value.dict es)
    | Except.error e => Except.error e
  | Value.list items =>
    match resolve_items context items with
    | Except.ok vs => Except.ok (Value.list vs)
    | Except.error e => Except.error e
  | v => Except.ok v

/-- Resolve every value of a string-keyed dict (the dict comprehension in
`_resolve_value`, and also the loop in `resolve_params`). -/
def resolve_entries (context : Dict Value) : List (String × Value) →
    Except Err (List (String × Value))
  | [] => Except.ok []
  | (k, v) :: rest =>
    match resolve_value context v with
    | Except.error e => Except.error e
    | Except.ok v2 =>
      match resolve_entries context rest with
      | Except.error e => Except.error e
      | Except.ok r2 => Except.ok ((k, v2) :: r2)

/-- Resolve every element of a list (the list comprehension in
`_resolve_value`). -/
def resolve_items (context : Dict Value) : List Value → Except Err (List Value)
  | [] => Except.ok []
  | v :: rest =>
    match resolve_value context v with
    | Except.error e => Except.error e
    | Except.ok v2 =>
      match resolve_items context rest with
      | Except.error e => Except.error e
      | Except.ok r2 => Except.ok (v2 :: r2)

end

/-- `StepType` (workflow_step.py): the four step kinds. -/
inductive StepType where
  | TOOL : StepType
  | CONDITION : StepType
  | PARALLEL : StepType
  | LOOP : StepType
deriving DecidableEq

/-- The Tool capability contract consumed by the engine (tool.py):
`validate` and `execute` are arbitrary Python methods and may raise, so
they are embedded as Except-valued functions. -/
structure Tool where
  name : String
  validate : Dict Value → Except Err Bool
  execute : Dict Value → Except Err Value

/-- `WorkflowStep` (workflow_step.py).  Injected condition callables take
the wrapper dict and may raise; a condition expression string is embedded
by its Python-eval denotation, likewise a possibly-raising function of the
wrapper dict. -/
structure WorkflowStep where
  id : String
  step_type : StepType
  tool_name : Option String := Option.none
  tool_params : Dict Value := []
  condition : Option (Dict Value → Except Err Bool) := Option.none
  condition_expression : Option (Dict Value → Except Err Bool) := Option.none
  on_true : Option (List String) := Option.none
  on_false : Option (List String) := Option.none
  parallel_steps : Option (List String) := Option.none
  loop_steps : Option (List String) := Option.none
  loop_condition : Option (Dict Value → Except Err Bool) := Option.none
  loop_expression : Option (Dict Value → Except Err Bool) := Option.none
  max_iterations : Nat := 10
  output_key : Option String := Option.none
  on_error : Option String := Option.none
  continue_on_error : Bool := false

/-- `WorkflowContext` (workflow.py): shared data, the per-step result
ledger, and the two convenience pointers.  `last_result` is Optional[Any]
in the source; Python cannot distinguish an absent value from a stored
None there, so it is embedded as a `Value` that is None initially. -/
structure WorkflowContext where
  data : Dict Value := []
  step_results : Dict (Dict Value) := []
  last_step_id : Option String := Option.none
  last_result : Value := Value.none

/-- `Workflow` (workflow.py): the step registry and the entry step. -/
structure Workflow where
  id : String
  name : String
  steps : Dict WorkflowStep := []
  start_step_id : String

/-- Python truthiness of an Optional[str]: None and the empty string are
falsy.  Used wherever the source tests `if x:` on an optional string. -/
def truthyOpt (o : Option String) : Option String :=
  match o with
  | Option.none => Option.none
  | some s => if s = "" then Option.none else some s

/-- The wrapper dict the engine passes to template resolution and to
condition evaluation: `[("context", data), ("step_results", results)]`. -/
def ctxDict (c : WorkflowContext) : Dict Value :=
  [("context", Value.dict c.data),
   ("step_results", Value.dict (c.step_results.map (fun p => (p.1, Value.dict p.2))))]

/-- `WorkflowStep.resolve_params`: resolve every tool parameter against
the wrapper dict. -/
def resolve_params (step : WorkflowStep) (context : Dict Value) :
    Except Err (Dict Value) :=
  resolve_entries context step.tool_params

/-- `WorkflowStep.evaluate_condition`: an injected callable is invoked
bare (its exceptions propagate); an expression string is evaluated inside
try/except, any failure resolving to false; with neither, default true. -/
def evaluate_condition (step : WorkflowStep) (context : Dict Value) :
    Except Err Bool :=
  match step.condition with
  | some f => f context
  | Option.none =>
    match step.condition_expression with
    | some f =>
      match f context with
      | Except.ok b => Except.ok b
      | Except.error _ => Except.ok false
    | Option.none => Except.ok true

/-- `WorkflowStep.evaluate_loop_condition`: same shape as
`evaluate_condition` but the default, with no predicate, is false. -/
def evaluate_loop_condition (step : WorkflowStep) (context : Dict Value) :
    Except Err Bool :=
  match step.loop_condition with
  | some f => f context
  | Option.none =>
    match step.loop_expression with
    | some f =>
      match f context with
      | Except.ok b => Except.ok b
      | Except.error _ => Except.ok false
    | Option.none => Except.ok false

/-- `Workflow.get_step`: registry lookup, raising `KeyError` when the id
is unknown. -/
def Workflow.get_step (w : Workflow) (step_id : String) : Except Err WorkflowStep :=
  match dget w.steps step_id with
  | some s => Except.ok s
  | Option.none =>
      Except.error (Err.keyError ("Step " ++ step_id ++ " not found in workflow " ++ w.id))

/-- The body of the try block in `Workflow._run_tool_step`: validate the
resolved params (a raising validate is caught by the same except), treat
a false validation as a `ToolExecutionError`, then execute the tool. -/
def attemptTool (tool : Tool) (params : Dict Value) (step_id : String) :
    Except Err Value :=
  match tool.validate params with
  | Except.error e => Except.error e
  | Except.ok ok =>
    if !ok then
      Except.error (Err.toolExecution tool.name
        ("Validation failed for tool " ++ tool.name ++ " in step " ++ step_id))
    else tool.execute params

/-- `Workflow._run_tool_step`.  The missing-tool-name and tool-not-found
raises and the parameter resolution happen before the try block, so their
errors are never routed through on_error / continue_on_error.  On a
failure inside the try block the step result records the stringified
exception and `last_result` is cleared; the result is stored only on the
on_error and continue_on_error paths, while the bare re-raise path stores
nothing. -/
def run_tool_step (step : WorkflowStep) (tools : Dict Tool)
    (ctx : WorkflowContext) : WorkflowContext × Except Err (Option String) :=
  match truthyOpt step.tool_name with
  | Option.none =>
      (ctx, Except.error (Err.valueError
        ("Step " ++ step.id ++ " is TOOL type but has no tool_name")))
  | some tname =>
    match dget tools tname with
    | Option.none =>
        (ctx, Except.error (Err.toolExecution tname
          ("Tool " ++ tname ++ " not found for step " ++ step.id)))
    | some tool =>
      match resolve_params step (ctxDict ctx) with
      | Except.error e => (ctx, Except.error e)
      | Except.ok params =>
        match attemptTool tool params step.id with
        | Except.ok result =>
          let step_result : Dict Value := [("result", result), ("error", Value.none)]
          let ctx2 : WorkflowContext :=
            { ctx with
              last_result := result,
              data := match truthyOpt step.output_key with
                      | some k => dset ctx.data k result
                      | Option.none => ctx.data }
          ({ ctx2 with step_results := dset ctx2.step_results step.id step_result },
           Except.ok Option.none)
        | Except.error e =>
          let step_result : Dict Value :=
            [("result", Value.none), ("error", Value.str (errStr e))]
          let ctx2 : WorkflowContext := { ctx with last_result := Value.none }
          match truthyOpt step.on_error with
          | some oe =>
              ({ ctx2 with step_results := dset ctx2.step_results step.id step_result },
               Except.ok (some oe))
          | Option.none =>
            if !step.continue_on_error then (ctx2, Except.error e)
            else
              ({ ctx2 with step_results := dset ctx2.step_results step.id step_result },
               Except.ok Option.none)

/-- `Workflow._run_condition_step`: evaluate the condition (exceptions
from an injected callable propagate), pick the branch list; an absent or
empty list terminates, a single id becomes the next step, several ids are
a `ValueError`.  The context is never mutated. -/
def run_condition_step (step : WorkflowStep) (ctx : WorkflowContext) :
    WorkflowContext × Except Err (Option String) :=
  match evaluate_condition step (ctxDict ctx) with
  | Except.error e => (ctx, Except.error e)
  | Except.ok condition_met =>
    let branch : String := if condition_met then "on_true" else "on_false"
    match (if condition_met then step.on_true else step.on_false) with
    | Option.none => (ctx, Except.ok Option.none)
    | some [] => (ctx, Except.ok Option.none)
    | some [s] => (ctx, Except.ok (some s))
    | some _ =>
        (ctx, Except.error (Err.valueError
          ("Step " ++ step.id ++ " " ++ branch ++
           " has multiple next steps defined. Use a dedicated PARALLEL step for fan-out.")))

/-- The nested sequential sub-chain run after a true CONDITION branch
inside a PARALLEL or LOOP body: follow TOOL steps while the next id is
truthy, stop at the first non-TOOL step.  The source loop has no guard,
so a cyclic chain would not terminate; the fuel bound embeds that loop,
with `outOfFuel` standing for the nonterminating executions that no claim
touches. -/
def runNestedChain (w : Workflow) (tools : Dict Tool) (fuel : Nat)
    (nested_current : Option String) (ctx : WorkflowContext) :
    WorkflowContext × Except Err Unit :=
    match truthyOpt nested_current with
    | Option.none => (ctx, Except.ok ())
    | some cur =>
      match fuel with
      | 0 => (ctx, Except.error Err.outOfFuel)
      | fuel2 + 1 =>
        match w.get_step cur with
        | Except.error e => (ctx, Except.error e)
        | Except.ok nested_step =>
          match nested_step.step_type with
          | StepType.TOOL =>
            match run_tool_step nested_step tools ctx with
            | (ctx2, Except.error e) => (ctx2, Except.error e)
            | (ctx2, Except.ok next) => runNestedChain w tools fuel2 next ctx2
          | _ => (ctx, Except.ok ())

/-- The for-loop over `parallel_steps` in `Workflow._run_parallel_step`:
TOOL children run through the TOOL handler (their next id discarded),
CONDITION children may trigger a nested chain, any other child type is
silently skipped (LOOP inside PARALLEL is unsupported). -/
def runParallelChildren (w : Workflow) (tools : Dict Tool) (fuel : Nat) :
    List String → WorkflowContext → WorkflowContext × Except Err Unit
  | [], ctx => (ctx, Except.ok ())
  | child_id :: rest, ctx =>
    match w.get_step child_id with
    | Except.error e => (ctx, Except.error e)
    | Except.ok child_step =>
      match child_step.step_type with
      | StepType.TOOL =>
        match run_tool_step child_step tools ctx with
        | (ctx2, Except.error e) => (ctx2, Except.error e)
        | (ctx2, Except.ok _) => runParallelChildren w tools fuel rest ctx2
      | StepType.CONDITION =>
        match run_condition_step child_step ctx with
        | (ctx2, Except.error e) => (ctx2, Except.error e)
        | (ctx2, Except.ok next_id) =>
          match runNestedChain w tools fuel next_id ctx2 with
          | (ctx3, Except.error e) => (ctx3, Except.error e)
          | (ctx3, Except.ok _) => runParallelChildren w tools fuel rest ctx3
      | _ => runParallelChildren w tools fuel rest ctx

/-- `Workflow._run_parallel_step`: run the children in listed order; a
falsy (absent or empty) child list terminates at once; the step itself
never defines a next step. -/
def run_parallel_step (w : Workflow) (step : WorkflowStep) (tools : Dict Tool)
    (fuel : Nat) (ctx : WorkflowContext) :
    WorkflowContext × Except Err (Option String) :=
  match step.parallel_steps with
  | Option.none => (ctx, Except.ok Option.none)
  | some [] => (ctx, Except.ok Option.none)
  | some children =>
    match runParallelChildren w tools fuel children ctx with
    | (ctx2, Except.error e) => (ctx2, Except.error e)
    | (ctx2, Except.ok _) => (ctx2, Except.ok Option.none)

/-- The for-loop over `loop_steps` in one iteration of
`Workflow._run_loop_step`: same dispatch as the parallel body, with
PARALLEL children (and any other non-TOOL, non-CONDITION child) silently
skipped. -/
def runLoopChildren (w : Workflow) (tools : Dict Tool) (fuel : Nat) :
    List String → WorkflowContext → WorkflowContext × Except Err Unit
  | [], ctx => (ctx, Except.ok ())
  | child_id :: rest, ctx =>
    match w.get_step child_id with
    | Except.error e => (ctx, Except.error e)
    | Except.ok child_step =>
      match child_step.step_type with
      | StepType.TOOL =>
        match run_tool_step child_step tools ctx with
        | (ctx2, Except.error e) => (ctx2, Except.error e)
        | (ctx2, Except.ok _) => runLoopChildren w tools fuel rest ctx2
      | StepType.CONDITION =>
        match run_condition_step child_step ctx with
        | (ctx2, Except.error e) => (ctx2, Except.error e)
        | (ctx2, Except.ok next_id) =>
          match runNestedChain w tools fuel next_id ctx2 with
          | (ctx3, Except.error e) => (ctx3, Except.error e)
          | (ctx3, Except.ok _) => runLoopChildren w tools fuel rest ctx3
      | _ => runLoopChildren w tools fuel rest ctx

/-- The while loop of `Workflow._run_loop_step`, counting down the
remaining iterations from `max_iterations`: the count bound is checked
first, then the continuation predicate is re-evaluated fresh each pass
(its exceptions propagate), and each pass runs the children in order. -/
def runLoopIters (w : Workflow) (tools : Dict Tool) (fuel : Nat)
    (step : WorkflowStep) (children : List String) :
    Nat → WorkflowContext → WorkflowContext × Except Err Unit
  | 0, ctx => (ctx, Except.ok ())
  | remaining + 1, ctx =>
    match evaluate_loop_condition step (ctxDict ctx) with
    | Except.error e => (ctx, Except.error e)
    | Except.ok cond =>
      if cond then
        match runLoopChildren w tools fuel children ctx with
        | (ctx2, Except.error e) => (ctx2, Except.error e)
        | (ctx2, Except.ok _) => runLoopIters w tools fuel step children remaining ctx2
      else (ctx, Except.ok ())

/-- `Workflow._run_loop_step`: a falsy (absent or empty) `loop_steps`
terminates at once; otherwise run the bounded while loop; the step never
defines a next step. -/
def run_loop_step (w : Workflow) (step : WorkflowStep) (tools : Dict Tool)
    (fuel : Nat) (ctx : WorkflowContext) :
    WorkflowContext × Except Err (Option String) :=
  match step.loop_steps with
  | Option.none => (ctx, Except.ok Option.none)
  | some [] => (ctx, Except.ok Option.none)
  | some children =>
    match runLoopIters w tools fuel step children step.max_iterations ctx with
    | (ctx2, Except.error e) => (ctx2, Except.error e)
    | (ctx2, Except.ok _) => (ctx2, Except.ok Option.none)

/-- The if/elif dispatch on `step.step_type` in `Workflow.run`.  The
source's trailing `raise ValueError` branch is dead code because the enum
has exactly these four members. -/
def dispatchStep (w : Workflow) (step : WorkflowStep) (tools : Dict Tool)
    (fuel : Nat) (ctx : WorkflowContext) :
    WorkflowContext × Except Err (Option String) :=
  match step.step_type with
  | StepType.TOOL => run_tool_step step tools ctx
  | StepType.CONDITION => run_condition_step step ctx
  | StepType.PARALLEL => run_parallel_step w step tools fuel ctx
  | StepType.LOOP => run_loop_step w step tools fuel ctx

/-- The while loop of `Workflow.run`, with its local `visited` list made
explicit state: revisiting a truthy current id raises the cycle error
before anything else; otherwise the id is appended to `visited` before
the registry lookup, `last_step_id` is set after it, and the handler
result decides the next id.  The fuel only bounds the recursion depth;
`w.steps.length + 1` always suffices because every pass appends a fresh
id that the next pass must find in the registry. -/
def runLoop (w : Workflow) (tools : Dict Tool) (fuel : Nat)
    (current : Option String) (visited : List String) (ctx : WorkflowContext) :
    WorkflowContext × List String × Except Err Unit :=
    match truthyOpt current with
    | Option.none => (ctx, visited, Except.ok ())
    | some cur =>
      if cur ∈ visited then (ctx, visited, Except.error (Err.cycle cur w.id))
      else
        match fuel with
        | 0 => (ctx, visited, Except.error Err.outOfFuel)
        | fuel2 + 1 =>
          let visited2 := visited ++ [cur]
          match w.get_step cur with
          | Except.error e => (ctx, visited2, Except.error e)
          | Except.ok step =>
            match dispatchStep w step tools fuel2
                { ctx with last_step_id := some step.id } with
            | (ctx3, Except.error e) => (ctx3, visited2, Except.error e)
            | (ctx3, Except.ok next) => runLoop w tools fuel2 next visited2 ctx3

/-- `Workflow.run`: traverse from `start_step_id` with an empty visited
list; on a normal return the final context is the returned artifact, and
an error leaves the caller holding the context as mutated so far. -/
def Workflow.run (w : Workflow) (tools : Dict Tool) (fuel : Nat)
    (ctx : WorkflowContext) : WorkflowContext × Except Err Unit :=
  match runLoop w tools fuel (some w.start_step_id) [] ctx with
  | (c, _, r) => (c, r)

/-- Reference definition, following the specification text for loop
boundedness: execute the loop body exactly `n` times in sequence (halting
early only if the body itself raises).  The LOOP handler is proven equal
to this `max_iterations`-fold iteration whenever the continuation
predicate always evaluates true. -/
def loopBodyIter (w : Workflow) (tools : Dict Tool) (fuel : Nat)
    (children : List String) : Nat → WorkflowContext → WorkflowContext × Except Err Unit
  | 0, ctx => (ctx, Except.ok ())
  | n + 1, ctx =>
    match runLoopChildren w tools fuel children ctx with
    | (ctx2, Except.error e) => (ctx2, Except.error e)
    | (ctx2, Except.ok _) => loopBodyIter w tools fuel children n ctx2

/-- The step-result dict the TOOL handler builds on a failure:
result None plus the stringified exception. -/
def failResult (e : Err) : Dict Value :=
  [("result", Value.none), ("error", Value.str (errStr e))]

/- Concrete fixtures used by the witnesses and counterexamples below. -/

/-- A fresh, empty workflow context. -/
def ctx0 : WorkflowContext := {}

/-- A tool that returns its integer argument plus one (1 when the
argument resolves to None), like a Python increment tool. -/
def incrTool : Tool :=
  { name := "incr",
    validate := fun _ => Except.ok true,
    execute := fun params =>
      match dget params "x" with
      | some (Value.int n) => Except.ok (Value.int (n + 1))
      | _ => Except.ok (Value.int 1) }

/-- Loop-body step: reads its own previous result via a template and
stores the incremented value under the `counter` data key. -/
def c3IncStep : WorkflowStep :=
  { id := "inc", step_type := StepType.TOOL, tool_name := some "incr",
    tool_params := [("x", Value.str "$\x7binc.result\x7d")],
    output_key := some "counter" }

/-- LOOP step with `max_iterations = 3` and an always-true condition. -/
def c3LoopStep : WorkflowStep :=
  { id := "loop1", step_type := StepType.LOOP, loop_steps := some ["inc"],
    loop_condition := some (fun _ => Except.ok true), max_iterations := 3 }

def c3Workflow : Workflow :=
  { id := "wf3", name := "loop wf",
    steps := [("loop1", c3LoopStep), ("inc", c3IncStep)],
    start_step_id := "loop1" }

/-- A lone CONDITION step (no predicate, no branches). -/
def c5Step : WorkflowStep := { id := "cond1", step_type := StepType.CONDITION }

def c5Workflow : Workflow :=
  { id := "wf5", name := "cond wf", steps := [("cond1", c5Step)],
    start_step_id := "cond1" }

/-- A tool that always returns the integer 42. -/
def t42Tool : Tool :=
  { name := "t42", validate := fun _ => Except.ok true,
    execute := fun _ => Except.ok (Value.int 42) }

def c9Child : WorkflowStep :=
  { id := "child", step_type := StepType.TOOL, tool_name := some "t42" }

def c9Par : WorkflowStep :=
  { id := "par", step_type := StepType.PARALLEL, parallel_steps := some ["child"] }

def c9Workflow : Workflow :=
  { id := "wf9", name := "par wf",
    steps := [("par", c9Par), ("child", c9Child)], start_step_id := "par" }

/-- A tool whose execution always raises. -/
def boomTool : Tool :=
  { name := "boom", validate := fun _ => Except.ok true,
    execute := fun _ => Except.error (Err.raised "boom failed") }

/-- TOOL step with neither on_error nor continue_on_error. -/
def c1Step : WorkflowStep :=
  { id := "s1", step_type := StepType.TOOL, tool_name := some "boom" }

def c1Workflow : Workflow :=
  { id := "wf1", name := "boom wf", steps := [("s1", c1Step)],
    start_step_id := "s1" }

/-- TOOL step with an on_error target. -/
def c1wStep : WorkflowStep :=
  { id := "c1w", step_type := StepType.TOOL, tool_name := some "boom",
    on_error := some "rescue" }

/-- TOOL step naming a tool absent from the registry, with both recovery
mechanisms set. -/
def c2Step : WorkflowStep :=
  { id := "s2", step_type := StepType.TOOL, tool_name := some "ghost",
    on_error := some "rescue", continue_on_error := true }

/-- CONDITION step whose injected predicate raises. -/
def c6Step : WorkflowStep :=
  { id := "c6", step_type := StepType.CONDITION,
    condition := some (fun _ => Except.error (Err.raised "missing reference")) }

/-- CONDITION step whose expression evaluation fails. -/
def c6ExprStep : WorkflowStep :=
  { id := "c6e", step_type := StepType.CONDITION,
    condition_expression := some (fun _ => Except.error (Err.raised "malformed")) }

/-- LOOP step whose loop expression evaluation fails. -/
def c6LoopExprStep : WorkflowStep :=
  { id := "c6l", step_type := StepType.LOOP,
    loop_expression := some (fun _ => Except.error (Err.raised "malformed")) }

/-- LOOP step whose injected loop predicate raises. -/
def c6LoopStep : WorkflowStep :=
  { id := "c6lc", step_type := StepType.LOOP,
    loop_condition := some (fun _ => Except.error (Err.raised "missing reference")) }

/-- TOOL step whose parameter references a context data key through the
documented template form. -/
def c7Step : WorkflowStep :=
  { id := "c7", step_type := StepType.TOOL, tool_name := some "t",
    tool_params := [("x", Value.str "$\x7bcontext.k\x7d")] }

def c7Ctx : WorkflowContext := { data := [("k", Value.int 42)] }

/-- TOOL step whose parameter references a prior step result. -/
def c7StepB : WorkflowStep :=
  { id := "c7b", step_type := StepType.TOOL, tool_name := some "t",
    tool_params := [("y", Value.str "$\x7bstepA.result\x7d")] }

def c7CtxB : WorkflowContext :=
  { step_results := [("stepA", [("result", Value.int 7), ("error", Value.none)])] }

/-- TOOL step whose parameter indexes a stored list out of range. -/
def c7StepC : WorkflowStep :=
  { id := "c7c", step_type := StepType.TOOL, tool_name := some "t",
    tool_params := [("z", Value.str "$\x7bstepA.result.5\x7d")] }

def c7CtxC : WorkflowContext :=
  { step_results := [("stepA", [("result", Value.list [Value.int 1]), ("error", Value.none)])] }

/-- Two CONDITION steps forming an accidental two-step cycle. -/
def c4AStep : WorkflowStep :=
  { id := "a", step_type := StepType.CONDITION, on_true := some ["b"] }

def c4BStep : WorkflowStep :=
  { id := "b", step_type := StepType.CONDITION, on_true := some ["a"] }

def c4Workflow : Workflow :=
  { id := "wfc", name := "cyclic wf",
    steps := [("a", c4AStep), ("b", c4BStep)], start_step_id := "a" }

/-- CONDITION step with two entries in on_true. -/
def c8TwoStep : WorkflowStep :=
  { id := "c8", step_type := StepType.CONDITION, on_true := some ["x", "y"] }

/-- CONDITION step with a single entry in on_true. -/
def c8OneStep : WorkflowStep :=
  { id := "c8s", step_type := StepType.CONDITION, on_true := some ["nxt"] }

/-- LOOP step with children but no continuation predicate at all. -/
def c10LoopStep : WorkflowStep :=
  { id := "l10", step_type := StepType.LOOP, loop_steps := some ["inc"],
    max_iterations := 5 }

/- Shared helper lemmas about the embedded engine. -/

/-- The LOOP while-loop runs zero iterations when the count is exhausted. -/
theorem runLoopIters_zero (w : Workflow) (tools : Dict Tool) (fuel : Nat)
    (step : WorkflowStep) (children : List String) (ctx : WorkflowContext) :
    runLoopIters w tools fuel step children 0 ctx = (ctx, Except.ok ()) := rfl

/-- One-step unfolding of the LOOP while-loop. -/
theorem runLoopIters_succ (w : Workflow) (tools : Dict Tool) (fuel : Nat)
    (step : WorkflowStep) (children : List String) (n : Nat) (ctx : WorkflowContext) :
    runLoopIters w tools fuel step children (n + 1) ctx =
      match evaluate_loop_condition step (ctxDict ctx) with
      | Except.error e => (ctx, Except.error e)
      | Except.ok cond =>
        if cond then
          match runLoopChildren w tools fuel children ctx with
          | (ctx2, Except.error e) => (ctx2, Except.error e)
          | (ctx2, Except.ok _) => runLoopIters w tools fuel step children n ctx2
        else (ctx, Except.ok ()) := rfl

/-- One-step unfolding of the reference body iteration. -/
theorem loopBodyIter_succ (w : Workflow) (tools : Dict Tool) (fuel : Nat)
    (children : List String) (n : Nat) (ctx : WorkflowContext) :
    loopBodyIter w tools fuel children (n + 1) ctx =
      match runLoopChildren w tools fuel children ctx with
      | (ctx2, Except.error e) => (ctx2, Except.error e)
      | (ctx2, Except.ok _) => loopBodyIter w tools fuel children n ctx2 := rfl

/-- With an always-true continuation predicate, the LOOP while-loop is
exactly the n-fold body iteration. -/
theorem runLoopIters_always_true (w : Workflow) (tools : Dict Tool) (fuel : Nat)
    (step : WorkflowStep) (children : List String)
    (hc : ∀ c, evaluate_loop_condition step c = Except.ok true) :
    ∀ n ctx, runLoopIters w tools fuel step children n ctx =
      loopBodyIter w tools fuel children n ctx := by
  intro n
  induction n with
  | zero => intro ctx; rfl
  | succ m ih =>
    intro ctx
    rw [runLoopIters_succ, loopBodyIter_succ, hc (ctxDict ctx)]
    simp only [if_true]
    cases h : runLoopChildren w tools fuel children ctx with
    | mk c2 r =>
      cases r with
      | error e => rfl
      | ok u => exact ih c2

/-- Appending a fresh element preserves duplicate freedom. -/
theorem nodup_snoc (l : List String) (a : String) (h : l.Nodup) (ha : a ∉ l) :
    (l ++ [a]).Nodup := by
  simp [List.nodup_append, h, ha]

/-- The visited list of the top-level traversal stays duplicate-free: a
step id is appended only after the loop has checked it is not already
present. -/
theorem runLoop_visited_nodup (w : Workflow) (tools : Dict Tool) :
    ∀ (fuel : Nat) (current : Option String) (visited : List String)
      (ctx : WorkflowContext), visited.Nodup →
      (runLoop w tools fuel current visited ctx).2.1.Nodup := by
  intro fuel
  induction fuel with
  | zero =>
    intro current visited ctx h
    rw [runLoop.eq_def]
    cases hc : truthyOpt current with
    | none => exact h
    | some cur =>
      by_cases hm : cur ∈ visited
      · simp [hm, h]
      · simp [hm, h]
  | succ f ih =>
    intro current visited ctx h
    rw [runLoop.eq_def]
    cases hc : truthyOpt current with
    | none => exact h
    | some cur =>
      by_cases hm : cur ∈ visited
      · simp [hm, h]
      · simp only [hm, if_false]
        have h2 : (visited ++ [cur]).Nodup := nodup_snoc visited cur h hm
        cases hg : w.get_step cur with
        | error e => simp [h2]
        | ok step =>
          simp only []
          cases hd : dispatchStep w step tools f { ctx with last_step_id := some step.id } with
          | mk c3 r =>
            cases r with
            | error e => simp [hd, h2]
            | ok next => simp [hd, ih next (visited ++ [cur]) c3 h2]

/-- Re-visiting a truthy step id raises the cycle error at once, before
the registry lookup and before any handler runs, leaving the context and
visited list untouched. -/
theorem runLoop_cycle_guard (w : Workflow) (tools : Dict Tool) (fuel : Nat)
    (cur : String) (visited : List String) (ctx : WorkflowContext)
    (hmem : cur ∈ visited) (hne : cur ≠ "") :
    runLoop w tools fuel (some cur) visited ctx =
      (ctx, visited, Except.error (Err.cycle cur w.id)) := by
  rw [runLoop.eq_def]
  simp only [truthyOpt, hne, ite_false, hmem, ite_true]

/-- The CONDITION handler never mutates the context. -/
theorem run_condition_preserves (step : WorkflowStep) (ctx : WorkflowContext) :
    (run_condition_step step ctx).1 = ctx := by
  unfold run_condition_step
  repeat' split <;> try rfl

/-- The TOOL handler never touches `last_step_id`. -/
theorem run_tool_preserves_last_step (step : WorkflowStep) (tools : Dict Tool)
    (ctx : WorkflowContext) :
    (run_tool_step step tools ctx).1.last_step_id = ctx.last_step_id := by
  unfold run_tool_step
  repeat' split <;> try rfl

/-- A TOOL step whose tool name is missing from the registry raises the
tool-not-found error unconditionally, with the context unchanged. -/
theorem run_tool_step_not_found (step : WorkflowStep) (tools : Dict Tool)
    (ctx : WorkflowContext) (tname : String)
    (h1 : truthyOpt step.tool_name = some tname)
    (h2 : dget tools tname = Option.none) :
    run_tool_step step tools ctx =
      (ctx, Except.error (Err.toolExecution tname
        ("Tool " ++ tname ++ " not found for step " ++ step.id))) := by
  simp only [run_tool_step, h1, h2]

/-- Behavior of the TOOL handler when validation or execution fails, by
error-wiring case: on_error stores the failure entry and redirects;
continue_on_error stores it and terminates; otherwise the exception
re-raises with `last_result` cleared and nothing stored. -/
theorem run_tool_step_failure (step : WorkflowStep) (tools : Dict Tool)
    (ctx : WorkflowContext) (tname : String) (tool : Tool) (params : Dict Value)
    (e : Err)
    (h1 : truthyOpt step.tool_name = some tname)
    (h2 : dget tools tname = some tool)
    (h3 : resolve_params step (ctxDict ctx) = Except.ok params)
    (h4 : attemptTool tool params step.id = Except.error e) :
    (∀ oe, truthyOpt step.on_error = some oe →
      run_tool_step step tools ctx =
        ({ ctx with
           last_result := Value.none,
           step_results := dset ctx.step_results step.id (failResult e) },
         Except.ok (some oe))) ∧
    (truthyOpt step.on_error = Option.none → step.continue_on_error = true →
      run_tool_step step tools ctx =
        ({ ctx with
           last_result := Value.none,
           step_results := dset ctx.step_results step.id (failResult e) },
         Except.ok Option.none)) ∧
    (truthyOpt step.on_error = Option.none → step.continue_on_error = false →
      run_tool_step step tools ctx =
        ({ ctx with last_result := Value.none }, Except.error e)) := by
  refine ⟨?_, ?_, ?_⟩
  · intro oe h5
    simp only [run_tool_step, h1, h2, h3, h4, h5]
    rfl
  · intro h5 h6
    simp only [run_tool_step, h1, h2, h3, h4, h5, h6]
    rfl
  · intro h5 h6
    simp only [run_tool_step, h1, h2, h3, h4, h5, h6]
    rfl

/-- Behavior of the TOOL handler on success: `last_result` gets the
result, `output_key` optionally exposes it in the data, and exactly one
step-result entry is stored. -/
theorem run_tool_step_success (step : WorkflowStep) (tools : Dict Tool)
    (ctx : WorkflowContext) (tname : String) (tool : Tool) (params : Dict Value)
    (result : Value)
    (h1 : truthyOpt step.tool_name = some tname)
    (h2 : dget tools tname = some tool)
    (h3 : resolve_params step (ctxDict ctx) = Except.ok params)
    (h4 : attemptTool tool params step.id = Except.ok result) :
    run_tool_step step tools ctx =
      ({ ctx with
         last_result := result,
         data := match truthyOpt step.output_key with
                 | some k => dset ctx.data k result
                 | Option.none => ctx.data,
         step_results := dset ctx.step_results step.id
           [("result", result), ("error", Value.none)] },
       Except.ok Option.none) := by
  simp only [run_tool_step, h1, h2, h3, h4]

/-- Dict assignment makes the key read back as the new value. -/
theorem dget_dset {α : Type} (d : Dict α) (k : String) (v : α) :
    dget (dset d k v) k = some v := by
  induction d with
  | nil => simp [dget, dset]
  | cons p rest ih =>
    by_cases h : p.1 = k
    · simp [dget, dset, h]
    · simp [dget, dset, h, ih]

/-- With no predicate of either kind, `evaluate_condition` defaults to
true. -/
theorem evaluate_condition_default (step : WorkflowStep) (c : Dict Value)
    (h1 : step.condition = Option.none)
    (h2 : step.condition_expression = Option.none) :
    evaluate_condition step c = Except.ok true := by
  simp only [evaluate_condition, h1, h2]

/-- With no predicate of either kind, `evaluate_loop_condition` defaults
to false. -/
theorem evaluate_loop_condition_default (step : WorkflowStep) (c : Dict Value)
    (h1 : step.loop_condition = Option.none)
    (h2 : step.loop_expression = Option.none) :
    evaluate_loop_condition step c = Except.ok false := by
  simp only [evaluate_loop_condition, h1, h2]

/-- A LOOP step with no continuation predicate runs zero iterations. -/
theorem run_loop_step_no_predicate (w : Workflow) (step : WorkflowStep)
    (tools : Dict Tool) (fuel : Nat) (ctx : WorkflowContext)
    (h1 : step.loop_condition = Option.none)
    (h2 : step.loop_expression = Option.none) :
    run_loop_step w step tools fuel ctx = (ctx, Except.ok Option.none) := by
  unfold run_loop_step
  cases hs : step.loop_steps with
  | none => rfl
  | some children =>
    cases children with
    | nil => rfl
    | cons c1 cs =>
      dsimp only
      cases hm : step.max_iterations with
      | zero => rw [runLoopIters_zero]
      | succ n =>
        rw [runLoopIters_succ, evaluate_loop_condition_default step (ctxDict ctx) h1 h2]
        rfl

/-- With an always-true continuation predicate and a truthy child list,
the LOOP handler is the `max_iterations`-fold body iteration. -/
theorem run_loop_step_always_true (w : Workflow) (step : WorkflowStep)
    (tools : Dict Tool) (fuel : Nat) (ctx : WorkflowContext) (children : List String)
    (hc : ∀ c, evaluate_loop_condition step c = Except.ok true)
    (hs : step.loop_steps = some children) (hne : children ≠ []) :
    run_loop_step w step tools fuel ctx =
      (match loopBodyIter w tools fuel children step.max_iterations ctx with
       | (ctx2, Except.error e) => (ctx2, Except.error e)
       | (ctx2, Except.ok _) => (ctx2, Except.ok Option.none)) := by
  unfold run_loop_step
  rw [hs]
  cases children with
  | nil => exact absurd rfl hne
  | cons c1 cs =>
    dsimp only
    rw [runLoopIters_always_true w tools fuel step (c1 :: cs) hc step.max_iterations ctx]

/- Claim theorems. -/

/-- Claim C1 (counterexample): a TOOL step whose tool raises with neither
on_error nor continue_on_error propagates the error out of the whole run
with `last_result` cleared, but contrary to the claim no
`step_results` entry is stored for the step (the step did execute:
`last_step_id` names it). -/
theorem c1_counterexample :
    (c1Workflow.run [("boom", boomTool)] 10 ctx0).2 =
      Except.error (Err.raised "boom failed") ∧
    (c1Workflow.run [("boom", boomTool)] 10 ctx0).1.last_step_id = some "s1" ∧
    (c1Workflow.run [("boom", boomTool)] 10 ctx0).1.last_result = Value.none ∧
    dget (c1Workflow.run [("boom", boomTool)] 10 ctx0).1.step_results "s1" =
      Option.none :=
  ⟨rfl, rfl, rfl, rfl⟩

/-- Claim C1 (amended): on a tool validation or execution failure the
failure entry is stored and `last_result` cleared when on_error is set
(next step is exactly on_error) or when continue_on_error is true (normal
termination); otherwise `last_result` is cleared but nothing is stored and
the error propagates fatally. -/
theorem c1_tool_error_routing (step : WorkflowStep) (tools : Dict Tool)
    (ctx : WorkflowContext) (tname : String) (tool : Tool) (params : Dict Value)
    (e : Err)
    (h1 : truthyOpt step.tool_name = some tname)
    (h2 : dget tools tname = some tool)
    (h3 : resolve_params step (ctxDict ctx) = Except.ok params)
    (h4 : attemptTool tool params step.id = Except.error e) :
    (∀ oe, truthyOpt step.on_error = some oe →
      run_tool_step step tools ctx =
        ({ ctx with
           last_result := Value.none,
           step_results := dset ctx.step_results step.id (failResult e) },
         Except.ok (some oe))) ∧
    (truthyOpt step.on_error = Option.none → step.continue_on_error = true →
      run_tool_step step tools ctx =
        ({ ctx with
           last_result := Value.none,
           step_results := dset ctx.step_results step.id (failResult e) },
         Except.ok Option.none)) ∧
    (truthyOpt step.on_error = Option.none → step.continue_on_error = false →
      run_tool_step step tools ctx =
        ({ ctx with last_result := Value.none }, Except.error e)) :=
  run_tool_step_failure step tools ctx tname tool params e h1 h2 h3 h4

/-- Witness for C1: the failing tool with on_error set jumps to the
rescue step with the failure entry stored and last_result cleared. -/
theorem c1_witness :
    (run_tool_step c1wStep [("boom", boomTool)] ctx0).2 = Except.ok (some "rescue") ∧
    dget (run_tool_step c1wStep [("boom", boomTool)] ctx0).1.step_results "c1w" =
      some [("result", Value.none), ("error", Value.str "boom failed")] ∧
    (run_tool_step c1wStep [("boom", boomTool)] ctx0).1.last_result = Value.none := by
  have h := (c1_tool_error_routing c1wStep [("boom", boomTool)] ctx0 "boom" boomTool []
    (Err.raised "boom failed") rfl rfl rfl rfl).1 "rescue" rfl
  refine ⟨?_, ?_, ?_⟩ <;> (rw [h]; try rfl)

/-- Claim C2 (counterexample): a TOOL step naming an unregistered tool,
with on_error = "rescue" and continue_on_error = true, still fails
fatally: the result is the tool-not-found error, not the claimed jump to
"rescue" nor a normal termination, and the context is untouched. -/
theorem c2_counterexample :
    (run_tool_step c2Step [] ctx0).2 =
      Except.error (Err.toolExecution "ghost" "Tool ghost not found for step s2") ∧
    (run_tool_step c2Step [] ctx0).2 ≠ Except.ok (some "rescue") ∧
    (run_tool_step c2Step [] ctx0).2 ≠ Except.ok Option.none ∧
    (run_tool_step c2Step [] ctx0).1 = ctx0 :=
  ⟨rfl, fun h => Except.noConfusion h, fun h => Except.noConfusion h, rfl⟩

/-- Claim C2 (amended): a TOOL step whose tool_name is absent from the
registry raises the tool-not-found error unconditionally — the raise
happens before the try block, so on_error and continue_on_error never
apply and the error propagates fatally with the context unchanged. -/
theorem c2_tool_not_found_fatal (step : WorkflowStep) (tools : Dict Tool)
    (ctx : WorkflowContext) (tname : String)
    (h1 : truthyOpt step.tool_name = some tname)
    (h2 : dget tools tname = Option.none) :
    run_tool_step step tools ctx =
      (ctx, Except.error (Err.toolExecution tname
        ("Tool " ++ tname ++ " not found for step " ++ step.id))) :=
  run_tool_step_not_found step tools ctx tname h1 h2

/-- Witness for C2 at the concrete missing-tool step. -/
theorem c2_witness :
    run_tool_step c2Step [] ctx0 =
      (ctx0, Except.error (Err.toolExecution "ghost"
        "Tool ghost not found for step s2")) :=
  c2_tool_not_found_fatal c2Step [] ctx0 "ghost" rfl rfl

/-- Claim C3: a LOOP step with an always-true continuation predicate and
a truthy child list executes its body exactly `max_iterations` times (the
handler equals the `max_iterations`-fold body iteration, so never one
more); concretely, the three-iteration counter workflow ends with
`context.data["counter"] == 3`. -/
theorem c3_loop_exact_iterations :
    (∀ (w : Workflow) (step : WorkflowStep) (tools : Dict Tool) (fuel : Nat)
       (ctx : WorkflowContext) (children : List String),
       (∀ c, evaluate_loop_condition step c = Except.ok true) →
       step.loop_steps = some children → children ≠ [] →
       run_loop_step w step tools fuel ctx =
         (match loopBodyIter w tools fuel children step.max_iterations ctx with
          | (ctx2, Except.error e) => (ctx2, Except.error e)
          | (ctx2, Except.ok _) => (ctx2, Except.ok Option.none))) ∧
    dget (c3Workflow.run [("incr", incrTool)] 10 ctx0).1.data "counter" =
      some (Value.int 3) ∧
    (c3Workflow.run [("incr", incrTool)] 10 ctx0).2 = Except.ok () :=
  ⟨fun w step tools fuel ctx children hc hs hne =>
     run_loop_step_always_true w step tools fuel ctx children hc hs hne,
   rfl, rfl⟩

/-- Witness for C3: the concrete loop step is the threefold body
iteration. -/
theorem c3_witness :
    run_loop_step c3Workflow c3LoopStep [("incr", incrTool)] 9 ctx0 =
      (match loopBodyIter c3Workflow [("incr", incrTool)] 9 ["inc"] 3 ctx0 with
       | (ctx2, Except.error e) => (ctx2, Except.error e)
       | (ctx2, Except.ok _) => (ctx2, Except.ok Option.none)) :=
  c3_loop_exact_iterations.1 c3Workflow c3LoopStep [("incr", incrTool)] 9 ctx0 ["inc"]
    (fun _ => rfl) rfl (by simp)

/-- Claim C4: revisiting an already-visited truthy step id raises the
cycle error naming that step, before the registry lookup or any handler
runs; and the visited list — which records exactly the top-level
dispatched step ids in order — stays duplicate-free, so no step id is
ever dispatched twice in one top-level traversal. -/
theorem c4_cycle_detection :
    (∀ (w : Workflow) (tools : Dict Tool) (fuel : Nat) (cur : String)
       (visited : List String) (ctx : WorkflowContext), cur ∈ visited → cur ≠ "" →
       runLoop w tools fuel (some cur) visited ctx =
         (ctx, visited, Except.error (Err.cycle cur w.id))) ∧
    (∀ (w : Workflow) (tools : Dict Tool) (fuel : Nat) (current : Option String)
       (visited : List String) (ctx : WorkflowContext), visited.Nodup →
       (runLoop w tools fuel current visited ctx).2.1.Nodup) :=
  ⟨fun w tools fuel cur visited ctx hm hne =>
     runLoop_cycle_guard w tools fuel cur visited ctx hm hne,
   fun w tools fuel current visited ctx h =>
     runLoop_visited_nodup w tools fuel current visited ctx h⟩

/-- Witness for C4: the two-step cyclic workflow raises the cycle error,
and the traversal trace of the cyclic workflow stays duplicate-free. -/
theorem c4_witness :
    runLoop c4Workflow [] 7 (some "a") ["a", "b"] ctx0 =
      (ctx0, ["a", "b"], Except.error (Err.cycle "a" "wfc")) ∧
    (runLoop c4Workflow [] 10 (some "a") [] ctx0).2.1.Nodup ∧
    (c4Workflow.run [] 10 ctx0).2 = Except.error (Err.cycle "a" "wfc") :=
  ⟨c4_cycle_detection.1 c4Workflow [] 7 "a" ["a", "b"] ctx0 (by simp) (by simp),
   c4_cycle_detection.2 c4Workflow [] 10 (some "a") [] ctx0 (by simp),
   rfl⟩

/-- Claim C5 (counterexample): a workflow consisting of one CONDITION
step runs to completion with that step executed (`last_step_id` names
it) yet `step_results` stays empty — no entry is written for the
executed step. -/
theorem c5_counterexample :
    (c5Workflow.run [] 10 ctx0).1.step_results = [] ∧
    (c5Workflow.run [] 10 ctx0).1.last_step_id = some "cond1" ∧
    (c5Workflow.run [] 10 ctx0).2 = Except.ok () :=
  ⟨rfl, rfl, rfl⟩

/-- Claim C5 (amended): only TOOL executions write `step_results`
entries.  A TOOL execution that succeeds or whose error is recovered
per-step writes exactly one entry under its own id, by dict assignment —
which overwrites any prior entry for that key; a TOOL execution whose
error propagates fatally writes none; a CONDITION execution leaves the
context unchanged. -/
theorem c5_step_results_writes :
    (∀ (step : WorkflowStep) (tools : Dict Tool) (ctx : WorkflowContext)
       (tname : String) (tool : Tool) (params : Dict Value) (result : Value),
       truthyOpt step.tool_name = some tname → dget tools tname = some tool →
       resolve_params step (ctxDict ctx) = Except.ok params →
       attemptTool tool params step.id = Except.ok result →
       (run_tool_step step tools ctx).1.step_results =
         dset ctx.step_results step.id [("result", result), ("error", Value.none)]) ∧
    (∀ (step : WorkflowStep) (tools : Dict Tool) (ctx : WorkflowContext)
       (tname : String) (tool : Tool) (params : Dict Value) (e : Err) (oe : String),
       truthyOpt step.tool_name = some tname → dget tools tname = some tool →
       resolve_params step (ctxDict ctx) = Except.ok params →
       attemptTool tool params step.id = Except.error e →
       truthyOpt step.on_error = some oe →
       (run_tool_step step tools ctx).1.step_results =
         dset ctx.step_results step.id (failResult e)) ∧
    (∀ (step : WorkflowStep) (tools : Dict Tool) (ctx : WorkflowContext)
       (tname : String) (tool : Tool) (params : Dict Value) (e : Err),
       truthyOpt step.tool_name = some tname → dget tools tname = some tool →
       resolve_params step (ctxDict ctx) = Except.ok params →
       attemptTool tool params step.id = Except.error e →
       truthyOpt step.on_error = Option.none → step.continue_on_error = true →
       (run_tool_step step tools ctx).1.step_results =
         dset ctx.step_results step.id (failResult e)) ∧
    (∀ (step : WorkflowStep) (tools : Dict Tool) (ctx : WorkflowContext)
       (tname : String) (tool : Tool) (params : Dict Value) (e : Err),
       truthyOpt step.tool_name = some tname → dget tools tname = some tool →
       resolve_params step (ctxDict ctx) = Except.ok params →
       attemptTool tool params step.id = Except.error e →
       truthyOpt step.on_error = Option.none → step.continue_on_error = false →
       (run_tool_step step tools ctx).1.step_results = ctx.step_results) ∧
    (∀ (step : WorkflowStep) (ctx : WorkflowContext),
       (run_condition_step step ctx).1 = ctx) ∧
    (∀ (d : Dict (Dict Value)) (k : String) (v : Dict Value),
       dget (dset d k v) k = some v) := by
  refine ⟨?_, ?_, ?_, ?_, ?_, ?_⟩
  · intro step tools ctx tname tool params result h1 h2 h3 h4
    rw [run_tool_step_success step tools ctx tname tool params result h1 h2 h3 h4]
  · intro step tools ctx tname tool params e oe h1 h2 h3 h4 h5
    rw [(run_tool_step_failure step tools ctx tname tool params e h1 h2 h3 h4).1 oe h5]
  · intro step tools ctx tname tool params e h1 h2 h3 h4 h5 h6
    rw [(run_tool_step_failure step tools ctx tname tool params e h1 h2 h3 h4).2.1 h5 h6]
  · intro step tools ctx tname tool params e h1 h2 h3 h4 h5 h6
    rw [(run_tool_step_failure step tools ctx tname tool params e h1 h2 h3 h4).2.2 h5 h6]
  · exact run_condition_preserves
  · exact fun d k v => dget_dset d k v

/-- Witness for C5: the successful child tool writes exactly its entry,
the lone CONDITION step writes nothing, and assignment reads back. -/
theorem c5_witness :
    (run_tool_step c9Child [("t42", t42Tool)] ctx0).1.step_results =
      dset ctx0.step_results "child" [("result", Value.int 42), ("error", Value.none)] ∧
    (run_condition_step c5Step ctx0).1 = ctx0 ∧
    dget (dset ([] : Dict (Dict Value)) "child" [("result", Value.int 42)]) "child" =
      some [("result", Value.int 42)] :=
  ⟨c5_step_results_writes.1 c9Child [("t42", t42Tool)] ctx0 "t42" t42Tool []
     (Value.int 42) rfl rfl rfl rfl,
   c5_step_results_writes.2.2.2.2.1 c5Step ctx0,
   c5_step_results_writes.2.2.2.2.2 [] "child" [("result", Value.int 42)]⟩

/-- Claim C6 (counterexample): an injected condition callable that raises
is not caught — the evaluation does not resolve to false but propagates
the exception through the CONDITION handler to the interpreter. -/
theorem c6_counterexample :
    evaluate_condition c6Step (ctxDict ctx0) =
      Except.error (Err.raised "missing reference") ∧
    evaluate_condition c6Step (ctxDict ctx0) ≠ Except.ok false ∧
    (run_condition_step c6Step ctx0).2 =
      Except.error (Err.raised "missing reference") :=
  ⟨rfl, fun h => Except.noConfusion h, rfl⟩

/-- Claim C6 (amended): a failing textual-expression evaluation always
resolves to false, for conditions and loop conditions alike; but an
injected predicate function that raises is not caught, and its exception
reaches the interpreter (the CONDITION handler propagates it). -/
theorem c6_condition_error_policy :
    (∀ (step : WorkflowStep) (c : Dict Value) (f : Dict Value → Except Err Bool)
       (e : Err), step.condition = Option.none →
       step.condition_expression = some f → f c = Except.error e →
       evaluate_condition step c = Except.ok false) ∧
    (∀ (step : WorkflowStep) (c : Dict Value) (f : Dict Value → Except Err Bool)
       (e : Err), step.loop_condition = Option.none →
       step.loop_expression = some f → f c = Except.error e →
       evaluate_loop_condition step c = Except.ok false) ∧
    (∀ (step : WorkflowStep) (c : Dict Value) (f : Dict Value → Except Err Bool)
       (e : Err), step.condition = some f → f c = Except.error e →
       evaluate_condition step c = Except.error e) ∧
    (∀ (step : WorkflowStep) (c : Dict Value) (f : Dict Value → Except Err Bool)
       (e : Err), step.loop_condition = some f → f c = Except.error e →
       evaluate_loop_condition step c = Except.error e) ∧
    (∀ (step : WorkflowStep) (ctx : WorkflowContext) (e : Err),
       evaluate_condition step (ctxDict ctx) = Except.error e →
       run_condition_step step ctx = (ctx, Except.error e)) := by
  refine ⟨?_, ?_, ?_, ?_, ?_⟩
  · intro step c f e h1 h2 h3
    simp only [evaluate_condition, h1, h2, h3]
  · intro step c f e h1 h2 h3
    simp only [evaluate_loop_condition, h1, h2, h3]
  · intro step c f e h1 h2
    simp only [evaluate_condition, h1, h2]
  · intro step c f e h1 h2
    simp only [evaluate_loop_condition, h1, h2]
  · intro step ctx e h
    simp only [run_condition_step, h]

/-- Witness for C6: concrete failing expressions resolve to false,
concrete raising injected predicates propagate. -/
theorem c6_witness :
    evaluate_condition c6ExprStep (ctxDict ctx0) = Except.ok false ∧
    evaluate_loop_condition c6LoopExprStep (ctxDict ctx0) = Except.ok false ∧
    evaluate_condition c6Step (ctxDict ctx0) =
      Except.error (Err.raised "missing reference") ∧
    evaluate_loop_condition c6LoopStep (ctxDict ctx0) =
      Except.error (Err.raised "missing reference") :=
  ⟨c6_condition_error_policy.1 c6ExprStep (ctxDict ctx0) _ (Err.raised "malformed")
     rfl rfl rfl,
   c6_condition_error_policy.2.1 c6LoopExprStep (ctxDict ctx0) _ (Err.raised "malformed")
     rfl rfl rfl,
   c6_condition_error_policy.2.2.1 c6Step (ctxDict ctx0) _ (Err.raised "missing reference")
     rfl rfl,
   c6_condition_error_policy.2.2.2.1 c6LoopStep (ctxDict ctx0) _ (Err.raised "missing reference")
     rfl rfl⟩

/-- Claim C7: evaluated at the documented inputs, the code resolves
a ${context.k} reference to None even though context.data stores k = 42
(the source looks k up in the two-key wrapper dict instead of the data
dict, contradicting its own docstring), resolves ${stepA.result} to the
stored result as documented, and raises IndexError for an out-of-range
list index instead of resolving to the no-value default. -/
theorem c7_template_resolution_bug :
    resolve_params c7Step (ctxDict c7Ctx) = Except.ok [("x", Value.none)] ∧
    resolve_params c7Step (ctxDict c7Ctx) ≠ Except.ok [("x", Value.int 42)] ∧
    dget c7Ctx.data "k" = some (Value.int 42) ∧
    resolve_params c7StepB (ctxDict c7CtxB) = Except.ok [("y", Value.int 7)] ∧
    resolve_params c7StepC (ctxDict c7CtxC) = Except.error (Err.indexError 5) := by
  refine ⟨rfl, ?_, rfl, rfl, rfl⟩
  intro h
  have he : resolve_params c7Step (ctxDict c7Ctx) = Except.ok [("x", Value.none)] := rfl
  rw [he] at h
  simp at h

/-- Claim C8: given the evaluated condition value, the CONDITION handler
selects on_true or on_false; an absent or empty selected list terminates
normally, exactly one id becomes the next step, and more than one id is a
fatal configuration ValueError raised by the handler itself (so it
propagates before any further step executes), always leaving the context
unchanged. -/
theorem c8_condition_branching (step : WorkflowStep) (ctx : WorkflowContext)
    (b : Bool) (h : evaluate_condition step (ctxDict ctx) = Except.ok b) :
    ((if b then step.on_true else step.on_false) = Option.none →
      run_condition_step step ctx = (ctx, Except.ok Option.none)) ∧
    ((if b then step.on_true else step.on_false) = some [] →
      run_condition_step step ctx = (ctx, Except.ok Option.none)) ∧
    (∀ s, (if b then step.on_true else step.on_false) = some [s] →
      run_condition_step step ctx = (ctx, Except.ok (some s))) ∧
    (∀ s1 s2 rest, (if b then step.on_true else step.on_false) = some (s1 :: s2 :: rest) →
      run_condition_step step ctx = (ctx, Except.error (Err.valueError
        ("Step " ++ step.id ++ " " ++ (if b then "on_true" else "on_false") ++
         " has multiple next steps defined. Use a dedicated PARALLEL step for fan-out.")))) := by
  refine ⟨?_, ?_, ?_, ?_⟩
  · intro hn; simp only [run_condition_step, h, hn]
  · intro hn; simp only [run_condition_step, h, hn]
  · intro s hn; simp only [run_condition_step, h, hn]
  · intro s1 s2 rest hn
    simp only [run_condition_step, h, hn]

/-- Witness for C8: two configured on_true targets raise the fatal
configuration error; a single target becomes the next step. -/
theorem c8_witness :
    run_condition_step c8TwoStep ctx0 = (ctx0, Except.error (Err.valueError
      "Step c8 on_true has multiple next steps defined. Use a dedicated PARALLEL step for fan-out.")) ∧
    run_condition_step c8OneStep ctx0 = (ctx0, Except.ok (some "nxt")) :=
  ⟨(c8_condition_branching c8TwoStep ctx0 true rfl).2.2.2 "x" "y" [] rfl,
   (c8_condition_branching c8OneStep ctx0 true rfl).2.2.1 "nxt" rfl⟩

/-- Claim C9 (counterexample): after running a PARALLEL step with one
TOOL child, the child has executed (its entry and result are present and
`last_result` is its value) but `last_step_id` still names the PARALLEL
parent, not the most recently executed step. -/
theorem c9_counterexample :
    (c9Workflow.run [("t42", t42Tool)] 10 ctx0).1.last_step_id = some "par" ∧
    (c9Workflow.run [("t42", t42Tool)] 10 ctx0).1.last_step_id ≠ some "child" ∧
    (c9Workflow.run [("t42", t42Tool)] 10 ctx0).1.last_result = Value.int 42 ∧
    dget (c9Workflow.run [("t42", t42Tool)] 10 ctx0).1.step_results "child" =
      some [("result", Value.int 42), ("error", Value.none)] ∧
    (c9Workflow.run [("t42", t42Tool)] 10 ctx0).2 = Except.ok () := by
  refine ⟨rfl, ?_, rfl, rfl, rfl⟩
  intro h
  have he : (c9Workflow.run [("t42", t42Tool)] 10 ctx0).1.last_step_id = some "par" := rfl
  rw [he] at h
  simp at h

/-- Claim C9 (amended): the TOOL handler never touches `last_step_id`
(only the top-level loop sets it, once per dispatched step), the
CONDITION handler leaves the context unchanged, and `last_result` is
maintained by TOOL executions alone: set to the result on success,
cleared to None on failure. -/
theorem c9_last_pointers :
    (∀ (step : WorkflowStep) (tools : Dict Tool) (ctx : WorkflowContext),
       (run_tool_step step tools ctx).1.last_step_id = ctx.last_step_id) ∧
    (∀ (step : WorkflowStep) (ctx : WorkflowContext),
       (run_condition_step step ctx).1 = ctx) ∧
    (∀ (step : WorkflowStep) (tools : Dict Tool) (ctx : WorkflowContext)
       (tname : String) (tool : Tool) (params : Dict Value) (result : Value),
       truthyOpt step.tool_name = some tname → dget tools tname = some tool →
       resolve_params step (ctxDict ctx) = Except.ok params →
       attemptTool tool params step.id = Except.ok result →
       (run_tool_step step tools ctx).1.last_result = result) ∧
    (∀ (step : WorkflowStep) (tools : Dict Tool) (ctx : WorkflowContext)
       (tname : String) (tool : Tool) (params : Dict Value) (e : Err),
       truthyOpt step.tool_name = some tname → dget tools tname = some tool →
       resolve_params step (ctxDict ctx) = Except.ok params →
       attemptTool tool params step.id = Except.error e →
       (run_tool_step step tools ctx).1.last_result = Value.none) := by
  refine ⟨run_tool_preserves_last_step, run_condition_preserves, ?_, ?_⟩
  · intro step tools ctx tname tool params result h1 h2 h3 h4
    rw [run_tool_step_success step tools ctx tname tool params result h1 h2 h3 h4]
  · intro step tools ctx tname tool params e h1 h2 h3 h4
    cases ho : truthyOpt step.on_error with
    | some oe =>
      rw [(run_tool_step_failure step tools ctx tname tool params e h1 h2 h3 h4).1 oe ho]
    | none =>
      cases hco : step.continue_on_error with
      | true =>
        rw [(run_tool_step_failure step tools ctx tname tool params e h1 h2 h3 h4).2.1 ho hco]
      | false =>
        rw [(run_tool_step_failure step tools ctx tname tool params e h1 h2 h3 h4).2.2 ho hco]

/-- Witness for C9: pointer behavior at the concrete child tool steps. -/
theorem c9_witness :
    (run_tool_step c9Child [("t42", t42Tool)] ctx0).1.last_step_id = ctx0.last_step_id ∧
    (run_condition_step c5Step ctx0).1 = ctx0 ∧
    (run_tool_step c9Child [("t42", t42Tool)] ctx0).1.last_result = Value.int 42 ∧
    (run_tool_step c1Step [("boom", boomTool)] ctx0).1.last_result = Value.none :=
  ⟨c9_last_pointers.1 c9Child [("t42", t42Tool)] ctx0,
   c9_last_pointers.2.1 c5Step ctx0,
   c9_last_pointers.2.2.1 c9Child [("t42", t42Tool)] ctx0 "t42" t42Tool []
     (Value.int 42) rfl rfl rfl rfl,
   c9_last_pointers.2.2.2 c1Step [("boom", boomTool)] ctx0 "boom" boomTool []
     (Err.raised "boom failed") rfl rfl rfl rfl⟩

/-- Claim C10: with neither predicate field set, `evaluate_condition`
defaults to true while `evaluate_loop_condition` defaults to false; hence
a CONDITION step with no predicate takes its on_true branch, and a LOOP
step with no predicate runs zero iterations, leaving the context
unchanged. -/
theorem c10_condition_defaults :
    (∀ (step : WorkflowStep) (c : Dict Value), step.condition = Option.none →
       step.condition_expression = Option.none →
       evaluate_condition step c = Except.ok true) ∧
    (∀ (step : WorkflowStep) (c : Dict Value), step.loop_condition = Option.none →
       step.loop_expression = Option.none →
       evaluate_loop_condition step c = Except.ok false) ∧
    (∀ (w : Workflow) (step : WorkflowStep) (tools : Dict Tool) (fuel : Nat)
       (ctx : WorkflowContext), step.loop_condition = Option.none →
       step.loop_expression = Option.none →
       run_loop_step w step tools fuel ctx = (ctx, Except.ok Option.none)) ∧
    (∀ (step : WorkflowStep) (ctx : WorkflowContext) (s : String),
       step.condition = Option.none → step.condition_expression = Option.none →
       step.on_true = some [s] →
       run_condition_step step ctx = (ctx, Except.ok (some s))) := by
  refine ⟨evaluate_condition_default, evaluate_loop_condition_default,
          run_loop_step_no_predicate, ?_⟩
  intro step ctx s h1 h2 hs
  simp only [run_condition_step,
    evaluate_condition_default step (ctxDict ctx) h1 h2, if_true, hs]

/-- Witness for C10 at concrete predicate-free steps. -/
theorem c10_witness :
    evaluate_condition c5Step (ctxDict ctx0) = Except.ok true ∧
    evaluate_loop_condition c10LoopStep (ctxDict ctx0) = Except.ok false ∧
    run_loop_step c3Workflow c10LoopStep [] 5 ctx0 = (ctx0, Except.ok Option.none) ∧
    run_condition_step c8OneStep ctx0 = (ctx0, Except.ok (some "nxt")) :=
  ⟨c10_condition_defaults.1 c5Step (ctxDict ctx0) rfl rfl,
   c10_condition_defaults.2.1 c10LoopStep (ctxDict ctx0) rfl rfl,
   c10_condition_defaults.2.2.1 c3Workflow c10LoopStep [] 5 ctx0 rfl rfl,
   c10_condition_defaults.2.2.2 c8OneStep ctx0 "nxt" rfl rfl rfl⟩
